import Mathlib

/-!
Verification development for the payment-processor service
(`server.js`, `db/database.js`, `notifications/notificationService.js`).

The handlers are embedded shallowly as pure Lean functions over an explicit
store state.  JavaScript/JSON values that the reconciliation logic inspects
are modelled by `JVal`; JavaScript numbers are modelled as `Int` (no claim
here depends on float behaviour).  The persistent `metadata` TEXT column
always holds the `JSON.stringify` of an object produced by this code, so
serialisation and parsing are modelled as the identity on the structured
value: the column is `Option JVal` (`none` = SQL NULL).  The catch branches
around `JSON.parse` of stored metadata are consequently unreachable in the
model; a malformed provider-event metadata payload yields the same extraction
outcome as an absent one and is modelled as `none` (see `extractedUSD`).

External effects are parameters: storage faults come from a fault oracle
(sqlite callback errors), the outbound WhatsApp HTTP outcome is an
`Except NetErr Nat` value, clock readings are explicit arguments carried in
`Env`.  Notifications are recorded as the list of `notifyAdmin` invocations
(the transaction row passed and the status label).
-/

namespace PaymentProcessor

/-- JSON-like values (JavaScript numbers modelled as `Int`). -/
inductive JVal : Type where
  | null : JVal
  | bool : Bool → JVal
  | num : Int → JVal
  | str : String → JVal
  | arr : List JVal → JVal
  | obj : List (String × JVal) → JVal

namespace JVal

/-- JavaScript truthiness of a value (`undefined` is modelled by absence,
i.e. `Option.none`, at use sites; NaN is not modelled). -/
def truthy : JVal → Bool
  | .null => false
  | .bool b => b
  | .num n => n != 0
  | .str s => s != ""
  | .arr _ => true
  | .obj _ => true

end JVal

/-- Property read `v[k]`: defined lookup only on objects; on every other
value (including arrays and primitives) the access yields `undefined`,
modelled as `none`. -/
def getKey : JVal → String → Option JVal
  | .obj kvs, k => (kvs.find? (fun p => p.1 == k)).map (fun p => p.2)
  | _, _ => none

/-- JavaScript `a || b` where `a` may be `undefined` (`none`). -/
def jor : Option JVal → JVal → JVal
  | some v, d => if v.truthy then v else d
  | none, d => d

/-- Property write `v[k] = x`.  On an object the key is replaced in place or
appended; on a primitive the write is a silent no-op.  (On a JS array the
property would be set but dropped again by `JSON.stringify`, so at the
storage level the no-op is the observed behaviour.) -/
def setKey : List (String × JVal) → String → JVal → List (String × JVal)
  | [], k, v => [(k, v)]
  | (k', v') :: rest, k, v =>
      if k' == k then (k, v) :: rest else (k', v') :: setKey rest k v

def jsetProp (v : JVal) (k : String) (x : JVal) : JVal :=
  match v with
  | .obj kvs => .obj (setKey kvs k x)
  | other => other

/-- Strict equality `field.variable_name === name` against a string literal:
true exactly when the property is that string. -/
def isFieldNamed (f : JVal) (name : String) : Bool :=
  match getKey f "variable_name" with
  | some (.str s) => s == name
  | _ => false

/-- `customFields.find(field => field.variable_name === name)`
(a non-object element has no `variable_name`, hence never matches). -/
def findField (xs : List JVal) (name : String) : Option JVal :=
  xs.find? (fun f => isFieldNamed f name)

/-- One row of the sqlite `transactions` table.  The name, phone and
donation-type columns hold whatever JS value the client supplied (sqlite is
dynamically typed); `status` is always written as a string by this code.
`updated_at` is a logical clock tick touched by every update. -/
structure TransactionRow where
  reference : String
  amount : JVal
  email : JVal
  status : String
  first_name : JVal
  last_name : JVal
  phone : JVal
  donation_type : JVal
  metadata : Option JVal
  verified_at : Option String
  updated_at : Nat

/-- The transaction store (rows of the `transactions` table, insertion
order). -/
abbrev Store : Type := List TransactionRow

/-- `SELECT * FROM transactions WHERE reference = ?` via `db.get`
(first matching row). -/
def getTransaction (s : Store) (ref : String) : Option TransactionRow :=
  s.find? (fun t => t.reference == ref)

/-- The dynamic `updates` object passed to `Database.updateTransaction`:
only the keys this codebase ever passes (`status`, `verified_at`,
`metadata`); `none` means the key is absent from the object. -/
structure TxUpdate where
  status : Option String
  verified_at : Option String
  metadata : Option JVal

/-- Effect of the generated `UPDATE ... SET <keys>, updated_at = now` on one
matching row. -/
def applyUpdate (t : TransactionRow) (u : TxUpdate) (now : Nat) : TransactionRow :=
  { t with
    status := match u.status with | some v => v | none => t.status
    verified_at := match u.verified_at with | some v => some v | none => t.verified_at
    metadata := match u.metadata with | some m => some m | none => t.metadata
    updated_at := now }

/-- `Database.updateTransaction`: runs the UPDATE over every row whose
reference matches and resolves with sqlite `this.changes` (the number of
matched rows).  An unknown reference is not an error: the statement simply
matches zero rows. -/
def updateTransaction (s : Store) (ref : String) (u : TxUpdate) (now : Nat) :
    Store × Nat :=
  (s.map (fun t => if t.reference == ref then applyUpdate t u now else t),
   (s.filter (fun t => t.reference == ref)).length)

/-- The only way `Database.updateTransaction` rejects: the sqlite callback
reported an error (a storage fault).  There is no not-found failure. -/
inductive DbFailure : Type where
  | storageFault : DbFailure
deriving DecidableEq, Repr

/-- `Database.updateTransaction` as the promise the callers await: rejects
exactly when the sqlite run callback reports an error, otherwise resolves
with the new store and the change count. -/
def updateTransactionRun (fault : Bool) (s : Store) (ref : String)
    (u : TxUpdate) (now : Nat) : Except DbFailure (Store × Nat) :=
  if fault then .error .storageFault else .ok (updateTransaction s ref u now)

/-- Failures of `Database.logTransaction`: the UNIQUE constraint on
`reference`, or any other sqlite error (storage fault). -/
inductive InsertFailure : Type where
  | duplicateReference : InsertFailure
  | storageFault : InsertFailure
deriving DecidableEq, Repr

/-- `Database.logTransaction`: INSERT of a fresh row; rejects on the UNIQUE
constraint when the reference already exists, or on a storage fault. -/
def logTransactionRun (fault : Bool) (s : Store) (t : TransactionRow) :
    Except InsertFailure Store :=
  if fault then .error .storageFault
  else if s.any (fun r => r.reference == t.reference) then
    .error .duplicateReference
  else .ok (s ++ [t])

/-! ## Notification service (`notifications/notificationService.js`) -/

/-- Outcome of the outbound `axios.post` to the WhatsApp relay: either an
HTTP response status or a network-level failure (which `axios` raises as an
exception inside `sendWhatsAppNotification`). -/
inductive NetErr : Type where
  | fail : NetErr
deriving DecidableEq, Repr

mutual

/-- JavaScript `String(v)` as used by template literals.  Array rendering is
approximated by a comma join of element renderings (a nested `null` would
render as the empty string in JS; no claim depends on that corner). -/
def jsToString : JVal → String
  | .null => "null"
  | .bool b => if b then "true" else "false"
  | .num n => toString n
  | .str s => s
  | .arr xs => String.intercalate "," (jsToStringList xs)
  | .obj _ => "[object Object]"

def jsToStringList : List JVal → List String
  | [] => []
  | x :: xs => jsToString x :: jsToStringList xs

end

/-- The `statusEmoji` lookup table (an unknown label falls back to the white
circle, exactly as `statusEmoji[paymentStatus] || '⚪'`). -/
def statusEmoji (p : String) : String :=
  if p == "initiated" || p == "pending" then "🟡"
  else if p == "completed" || p == "success" then "🟢"
  else if p == "failed" then "🔴"
  else if p == "abandoned" then "⚫"
  else "⚪"

/-- `metadata.originalAmountUSD || 0` read in the formatter (absent or NULL
metadata leaves the amount at 0). -/
def metaUSD : Option JVal → JVal
  | some v => jor (getKey v "originalAmountUSD") (.num 0)
  | none => .num 0

/-- JavaScript `v > 0`.  Numeric-string coercion is modelled for integer
strings; other coercion corners (arrays, booleans) keep the JS outcome for
booleans and default to false otherwise. -/
def jsGtZero : JVal → Bool
  | .num n => 0 < n
  | .str s => match s.toInt? with | some n => 0 < n | none => false
  | .bool b => b
  | _ => false

/-- `NotificationService.formatNotificationMessage`.  The wall-clock string
(`watTime`) is an explicit parameter standing for
`new Date().toLocaleString(..)`.  The in-memory initialize object carries the
names under camel-case keys; the row model stores them in the snake-case
fields, so the `first_name || firstName` fallback chain collapses to one
field read. -/
def formatNotificationMessage (t : TransactionRow) (paymentStatus : String)
    (watTime : String) : String :=
  let emoji := statusEmoji paymentStatus
  let firstName := jsToString (jor (some t.first_name) (.str ""))
  let lastName := jsToString (jor (some t.last_name) (.str ""))
  let fullName := (firstName ++ " " ++ lastName).trim
  let usd := metaUSD t.metadata
  let base :=
    "\n" ++ emoji ++ " *Payment " ++ paymentStatus.toUpper ++ "*\n\n" ++
    "*Reference:* " ++ t.reference ++ "\n" ++
    "*Amount:* ₦" ++ jsToString t.amount
  let withUsd :=
    if jsGtZero usd then base ++ " ($" ++ jsToString usd ++ ")" else base
  let msg :=
    withUsd ++ "\n" ++
    "*Email:* " ++ jsToString t.email ++ "\n" ++
    "*Name:* " ++ (if fullName == "" then "N/A" else fullName) ++ "\n" ++
    "*Phone:* " ++ jsToString (jor (some t.phone) (.str "N/A")) ++ "\n" ++
    "*Donation Type:* " ++ jsToString (jor (some t.donation_type) (.str "One-time")) ++ "\n\n" ++
    "*Time:* " ++ watTime ++ " (WAT)"
  msg.trim

/-- `NotificationService.sendWhatsAppNotification`: its own try/catch maps a
raised network error to `false`; a response resolves to `status === 200`.
It never raises to its caller. -/
def sendWhatsAppNotification (wa : Except NetErr Nat) (phoneNumber : String)
    (message : String) : Bool :=
  let _ := phoneNumber
  let _ := message
  match wa with
  | .ok st => st == 200
  | .error _ => false

/-- `NotificationService.notifyAdmin`.  The source awaits
`sendWhatsAppNotification` without using its value and then returns `true`;
since the awaited call never throws (and the formatter is total), the catch
branch that would return `false` is unreachable and the function returns
`true` on every input. -/
def notifyAdmin (adminPhone : Option String) (wa : Except NetErr Nat)
    (watTime : String) (t : TransactionRow) (paymentStatus : String) : Bool :=
  let message := formatNotificationMessage t paymentStatus watTime
  let _ :=
    match adminPhone with
    | some p => sendWhatsAppNotification wa p message
    | none => true
  true

/-! ## Metadata extraction shared by the webhook and verify handlers -/

/-- The direct-property check
`if (!originalAmountUSD && metadata.originalAmountUSD) { ... }`:
replaces a falsy current amount with the direct `originalAmountUSD` property
when that property is truthy. -/
def directUSD (m : JVal) (cur : JVal) : JVal :=
  if !cur.truthy then
    match getKey m "originalAmountUSD" with
    | some d => if d.truthy then d else cur
    | none => cur
  else cur

/-- The `originalAmountUSD` value after the metadata block of the webhook
handler (and, identically, of the verify handler): start at 0; when the
event metadata is present and truthy, first try the
`original_amount_usd` custom field, then the direct property.  The argument
is the metadata value after the string/object normalisation
(`typeof === 'string' ? JSON.parse : ...`); a payload whose parse throws
contributes nothing, exactly like an absent one, and is modelled as `none`.
When `custom_fields` is truthy but not an array, `customFields.find` throws
inside the try block, which skips both the custom-field and the direct
check and leaves the amount at 0. -/
def extractedUSD : Option JVal → JVal
  | none => .num 0
  | some m =>
      if !m.truthy then .num 0
      else
        match getKey m "custom_fields" with
        | some cf =>
            if cf.truthy then
              match cf with
              | .arr xs =>
                  let usd := jor ((findField xs "original_amount_usd").bind
                    (fun f => getKey f "value")) (.num 0)
                  directUSD m usd
              | _ => .num 0
            else directUSD m (.num 0)
        | none => directUSD m (.num 0)

/-- Webhook-only fallback (absent from the verify handler): when the amount
extracted from the event is falsy and the current row has stored metadata,
re-read `originalAmountUSD || 0` from the stored metadata.  The stored
metadata TEXT is a non-empty JSON serialisation, hence truthy whenever the
column is not NULL. -/
def webhookUSD (evMeta : Option JVal) (cur : Option TransactionRow) : JVal :=
  let e := extractedUSD evMeta
  if e.truthy then e
  else
    match cur with
    | some t =>
        match t.metadata with
        | some m => jor (getKey m "originalAmountUSD") (.num 0)
        | none => e
    | none => e

/-- `updatedMetadata`: start from the stored metadata object (or `{}` when
there is no row or a NULL column), then overwrite the `originalAmountUSD`
key with the extracted amount.  Used verbatim by both the webhook and the
verify success paths. -/
def mergedMetadata (cur : Option TransactionRow) (usd : JVal) : JVal :=
  let base :=
    match cur with
    | some t => match t.metadata with | some m => m | none => JVal.obj []
    | none => JVal.obj []
  jsetProp base "originalAmountUSD" usd

/-- The update payload written by the success transition (webhook and
verify alike): `status = completed`, `verified_at = now`, the merged
metadata. -/
def successUpdate (cur : Option TransactionRow) (usd : JVal)
    (nowIso : String) : TxUpdate :=
  ⟨some "completed", some nowIso, some (mergedMetadata cur usd)⟩

/-! ## Request handlers (`server.js`) -/

/-- Ambient request-scoped context: the configured admin phone, the outcome
the WhatsApp relay would give, the rendered wall-clock string used in
messages, the `new Date().toISOString()` reading, and the logical tick
stamped into `updated_at`. -/
structure Env where
  adminPhone : Option String
  wa : Except NetErr Nat
  watTime : String
  nowIso : String
  now : Nat

/-- A provider webhook delivery: the outer event name, the payment
reference, the inner `data.status` string, and the vendor metadata already
normalised as in `extractedUSD`. -/
structure WebhookEvent where
  event : String
  reference : String
  dataStatus : String
  metadata : Option JVal

/-- Observable outcome of one webhook delivery: HTTP status sent to the
provider, the store afterwards, the `notifyAdmin` invocations (row passed
and status label) with their boolean results, the successful
`updateTransaction` payloads, and how many storage operations were
attempted (each one consults the fault oracle at its index). -/
structure WebhookResult where
  statusCode : Nat
  store : Store
  notifs : List (TransactionRow × String)
  notifResults : List Bool
  updates : List TxUpdate
  storageCalls : Nat

/-- `POST /payments/webhook`.  `hmac` is the sha512 HMAC of the raw body
under the configured secret; `sigHeader` is the `x-paystack-signature`
header (`none` when absent).  `faults i = true` makes the i-th storage
operation of this request reject, which the catch block turns into a 500
acknowledgment. -/
def webhookHandler (faults : Nat → Bool) (env : Env) (s : Store)
    (hmac : String) (sigHeader : Option String) (ev : WebhookEvent) :
    WebhookResult :=
  if sigHeader ≠ some hmac then
    ⟨401, s, [], [], [], 0⟩
  else if ev.event == "charge.success" then
    if faults 0 then ⟨500, s, [], [], [], 1⟩
    else
      let cur := getTransaction s ev.reference
      if (cur.map (fun t => t.status == "completed")).getD false then
        ⟨200, s, [], [], [], 1⟩
      else if ev.dataStatus == "success" then
        let u : TxUpdate :=
          successUpdate cur (webhookUSD ev.metadata cur) env.nowIso
        match updateTransactionRun (faults 1) s ev.reference u env.now with
        | .error _ => ⟨500, s, [], [], [], 2⟩
        | .ok (s1, _) =>
            if faults 2 then ⟨500, s1, [], [], [u], 3⟩
            else
              match getTransaction s1 ev.reference with
              | some t =>
                  let r := notifyAdmin env.adminPhone env.wa env.watTime t
                    "completed (via Webhook)"
                  ⟨200, s1, [(t, "completed (via Webhook)")], [r], [u], 3⟩
              | none => ⟨200, s1, [], [], [u], 3⟩
      else
        let u : TxUpdate := ⟨some ev.dataStatus, none, none⟩
        match updateTransactionRun (faults 1) s ev.reference u env.now with
        | .error _ => ⟨500, s, [], [], [], 2⟩
        | .ok (s1, _) => ⟨200, s1, [], [], [u], 2⟩
  else
    ⟨200, s, [], [], [], 0⟩

/-- The provider reply to `GET /transaction/verify/:reference`: the boolean
`data.status` flag, the inner `data.data.status` string and the echoed
metadata (normalised as in `extractedUSD`). -/
structure VerifyProviderResp where
  ok : Bool
  paymentStatus : String
  metadata : Option JVal

/-- The verify `statusMap[paymentStatus] || 'failed'` lookup. -/
def verifyStatusMap (p : String) : String :=
  if p == "failed" || p == "abandoned" || p == "pending" then p else "failed"

/-- Observable outcome of one verify request: HTTP status, the `dbStatus`
field of the JSON body (empty when the response has none), the `message`
field, the store afterwards, the `notifyAdmin` invocations with their
results, and the successful `updateTransaction` payloads. -/
structure VerifyResult where
  statusCode : Nat
  dbStatusResp : String
  message : String
  store : Store
  notifs : List (TransactionRow × String)
  notifResults : List Bool
  updates : List TxUpdate

/-- `GET /payments/verify/:reference`, after a provider reply arrived.
Storage faults in this handler would surface through the catch block as a
500 to the caller; the claims about verify do not involve faults, so the
storage operations are taken on their success path here. -/
def verifyHandler (env : Env) (s : Store) (ref : String)
    (resp : VerifyProviderResp) : VerifyResult :=
  let cur := getTransaction s ref
  let dbStatus := match cur with | some t => t.status | none => "not_found"
  if resp.ok && resp.paymentStatus == "success" && dbStatus != "completed" then
    let u : TxUpdate :=
      successUpdate cur (extractedUSD resp.metadata) env.nowIso
    let s1 := (updateTransaction s ref u env.now).1
    match getTransaction s1 ref with
    | some t =>
        let r := notifyAdmin env.adminPhone env.wa env.watTime t
          "completed (via Verification)"
        ⟨200, "updated_via_verification", "Payment verified successfully",
          s1, [(t, "completed (via Verification)")], [r], [u]⟩
    | none =>
        ⟨200, "updated_via_verification", "Payment verified successfully",
          s1, [], [], [u]⟩
  else if dbStatus == "completed" then
    ⟨200, "completed_by_webhook",
      "Payment verified and already completed by webhook", s, [], [], []⟩
  else
    let us := verifyStatusMap resp.paymentStatus
    let step :=
      if dbStatus != us then
        ((updateTransaction s ref ⟨some us, none, none⟩ env.now).1,
         [(⟨some us, none, none⟩ : TxUpdate)])
      else (s, [])
    let s1 := step.1
    match getTransaction s1 ref with
    | some t =>
        if t.status == us then
          let r := notifyAdmin env.adminPhone env.wa env.watTime t
            (us ++ " (via Verification)")
          ⟨400, "", "Payment " ++ us, s1,
            [(t, us ++ " (via Verification)")], [r], step.2⟩
        else ⟨400, "", "Payment " ++ us, s1, [], [], step.2⟩
    | none => ⟨400, "", "Payment " ++ us, s1, [], [], step.2⟩

/-- The body of `POST /payments/initialize` (absent fields are `.null`;
the model does not distinguish `undefined` from `null`, which agree on
truthiness and on every read this code performs). -/
structure InitReq where
  amount : JVal
  email : JVal
  firstName : JVal
  lastName : JVal
  phone : JVal
  frequency : JVal
  metadata : JVal

/-- Outcome of the `axios.post` to the provider initialize endpoint. -/
inductive ProviderOutcome : Type where
  | ok : Bool → ProviderOutcome
  | httpError : Nat → ProviderOutcome
  | noResponse : ProviderOutcome
  | otherError : ProviderOutcome

/-- A `custom_fields` entry. -/
def customField (display : String) (varName : String) (v : JVal) : JVal :=
  .obj [("display_name", .str display), ("variable_name", .str varName),
    ("value", v)]

/-- Object spread `{ ... , ...m }`: the keys of an object `m` overwrite in
order; spreading `null`/`undefined` adds nothing (spreading other
primitives is not modelled — the client sends an object or nothing). -/
def spreadInto (base : List (String × JVal)) (m : JVal) :
    List (String × JVal) :=
  match m with
  | .obj kvs => kvs.foldl (fun acc p => setKey acc p.1 p.2) base
  | _ => base

/-- The `fullMetadata` object built by the initialize handler: five custom
fields, the root-level `originalAmountUSD`, then the client metadata spread
last (so client keys win). -/
def fullMetadataOf (r : InitReq) : JVal :=
  let usd := jor (getKey r.metadata "originalAmountUSD") (.num 0)
  .obj (spreadInto
    [("custom_fields", .arr
        [customField "First Name" "first_name" (jor (some r.firstName) (.str "")),
         customField "Last Name" "last_name" (jor (some r.lastName) (.str "")),
         customField "Phone" "phone" (jor (some r.phone) (.str "")),
         customField "Donation Type" "donation_type" r.frequency,
         customField "Original Amount USD" "original_amount_usd" usd]),
     ("originalAmountUSD", usd)]
    r.metadata)

/-- Observable outcome of one initialize request. -/
structure InitResult where
  statusCode : Nat
  message : String
  providerCalled : Bool
  store : Store
  notifs : List (TransactionRow × String)
  notifResults : List Bool

/-- `POST /payments/initialize`.  `genRef` stands for the generated
`ROYAL_SCHOLARS_<timestamp>_<random>` reference; `fault` makes the INSERT
reject.  Validation runs before the provider call, the row creation and the
notification. -/
def initializeHandler (fault : Bool) (env : Env) (s : Store) (r : InitReq)
    (genRef : String) (pout : ProviderOutcome) : InitResult :=
  if !r.amount.truthy || !r.email.truthy then
    ⟨400, "Amount and email are required", false, s, [], []⟩
  else
    match pout with
    | .ok true =>
        let row : TransactionRow :=
          { reference := genRef
            amount := r.amount
            email := r.email
            status := "initiated"
            first_name := jor (some r.firstName) (.str "")
            last_name := jor (some r.lastName) (.str "")
            phone := jor (some r.phone) (.str "")
            donation_type := r.frequency
            metadata := some (fullMetadataOf r)
            verified_at := none
            updated_at := env.now }
        match logTransactionRun fault s row with
        | .error _ =>
            ⟨500, "Failed to initialize payment", true, s, [], []⟩
        | .ok s1 =>
            let res := notifyAdmin env.adminPhone env.wa env.watTime row
              "initiated"
            ⟨200, "Payment initialized successfully", true, s1,
              [(row, "initiated")], [res]⟩
    | .ok false =>
        ⟨400, "Paystack initialization failed", true, s, [], []⟩
    | .httpError c =>
        ⟨(if c == 0 then 500 else c), "Paystack API error", true, s, [], []⟩
    | .noResponse =>
        ⟨503, "Payment service temporarily unavailable", true, s, [], []⟩
    | .otherError =>
        ⟨500, "Failed to initialize payment", true, s, [], []⟩

/-! ## Store lemmas -/

theorem applyUpdate_reference (t : TransactionRow) (u : TxUpdate) (now : Nat) :
    (applyUpdate t u now).reference = t.reference := rfl

theorem find?_map_update (l : List TransactionRow) (ref : String)
    (u : TxUpdate) (now : Nat) :
    (l.map (fun t => if t.reference == ref then applyUpdate t u now else t)).find?
        (fun t => t.reference == ref)
      = (l.find? (fun t => t.reference == ref)).map
          (fun t => applyUpdate t u now) := by
  induction l with
  | nil => rfl
  | cons t ts ih =>
      cases hx : t.reference == ref with
      | true =>
          have hr : ((applyUpdate t u now).reference == ref) = true := by
            rw [applyUpdate_reference]; exact hx
          simp only [List.map_cons, List.find?_cons, hx, eq_self_iff_true,
            if_true, hr, Option.map_some']
      | false =>
          have hr : ((applyUpdate t u now).reference == ref) = false := by
            rw [applyUpdate_reference]; exact hx
          simp only [List.map_cons, List.find?_cons, hx, Bool.false_eq_true,
            if_false]
          exact ih

/-- Reading back the reference just updated returns the updated first
matching row. -/
theorem getTransaction_update (s : Store) (ref : String) (u : TxUpdate)
    (now : Nat) :
    getTransaction (updateTransaction s ref u now).1 ref
      = (getTransaction s ref).map (fun t => applyUpdate t u now) := by
  unfold getTransaction updateTransaction
  exact find?_map_update s ref u now

/-- An UPDATE whose reference matches no row leaves the store unchanged and
reports zero changes. -/
theorem update_unknown_eq (s : Store) (ref : String) (u : TxUpdate)
    (now : Nat) (h : getTransaction s ref = none) :
    updateTransaction s ref u now = (s, 0) := by
  unfold getTransaction at h
  rw [List.find?_eq_none] at h
  unfold updateTransaction
  have hm : s.map
      (fun t => if t.reference == ref then applyUpdate t u now else t) = s := by
    conv_rhs => rw [← List.map_id s]
    apply List.map_congr_left
    intro t ht
    have hb := h t ht
    simp only [Bool.not_eq_true] at hb
    simp [hb]
  have hf : s.filter (fun t => t.reference == ref) = [] := by
    rw [List.filter_eq_nil_iff]
    intro t ht
    exact h t ht
  rw [hm, hf]
  rfl

/-! ## Concrete fixtures -/

/-- A request context used by the concrete witnesses. -/
def sampleEnv : Env :=
  ⟨some "2348000000000", .ok 200, "January 1, 2026, 01:00:00 PM",
    "2026-01-01T12:00:00.000Z", 7⟩

/-- A stored record in status `pending`. -/
def rowPending : TransactionRow :=
  ⟨"REF1", .num 5000, .str "a@b.com", "pending", .str "Ada", .str "Lovelace",
    .str "080", .str "one-time", none, none, 0⟩

/-- A stored record in status `completed`. -/
def rowCompleted : TransactionRow :=
  ⟨"REF2", .num 5000, .str "a@b.com", "completed", .str "Ada", .str "Lovelace",
    .str "080", .str "one-time", some (.obj [("originalAmountUSD", .num 3)]),
    some "2026-01-01T11:00:00.000Z", 3⟩

/-- A stored record in status `initiated` whose metadata carries a
secondary-currency amount and one other key. -/
def rowWithUsd : TransactionRow :=
  ⟨"REF3", .num 5000, .str "a@b.com", "initiated", .str "Ada", .str "Lovelace",
    .str "080", .str "one-time",
    some (.obj [("originalAmountUSD", .num 50), ("note", .str "x")]),
    none, 0⟩

/-- An initialize body with the amount field absent. -/
def reqMissingAmount : InitReq :=
  ⟨.null, .str "a@b.com", .str "Ada", .null, .null, .str "one-time", .null⟩

/-- An initialize body with amount 0 and a valid email. -/
def reqZeroAmount : InitReq :=
  ⟨.num 0, .str "a@b.com", .str "Ada", .null, .null, .str "one-time", .null⟩

/-! ## Claims -/

/-- C1: once a stored record has status `completed`, no webhook delivery and
no verify call for that reference changes the store or fires a notification:
the webhook handler acknowledges (200, absent storage faults) with no update
issued, and the verify handler answers 200 with `dbStatus` equal to
`completed_by_webhook`, performing no write and no notify. -/
theorem completed_status_absorbing (s : Store) (r : String)
    (t : TransactionRow) (faults : Nat → Bool) (env : Env) (hmac : String)
    (ev : WebhookEvent) (resp : VerifyProviderResp)
    (hget : getTransaction s r = some t) (hst : t.status = "completed")
    (href : ev.reference = r) :
    ((webhookHandler faults env s hmac (some hmac) ev).store = s ∧
     (webhookHandler faults env s hmac (some hmac) ev).notifs = [] ∧
     (webhookHandler faults env s hmac (some hmac) ev).updates = []) ∧
    (webhookHandler (fun _ => false) env s hmac (some hmac) ev).statusCode = 200 ∧
    ((verifyHandler env s r resp).store = s ∧
     (verifyHandler env s r resp).notifs = [] ∧
     (verifyHandler env s r resp).updates = [] ∧
     (verifyHandler env s r resp).statusCode = 200 ∧
     (verifyHandler env s r resp).dbStatusResp = "completed_by_webhook") := by
  have hsig : ¬ (some hmac ≠ some hmac) := by simp
  refine ⟨?_, ?_, ?_⟩
  · unfold webhookHandler
    rw [if_neg hsig]
    by_cases he : (ev.event == "charge.success") = true
    · rw [if_pos he]
      cases hf : faults 0 with
      | true => simp [hf]
      | false => simp [hf, href, hget, hst]
    · rw [if_neg he]
      exact ⟨rfl, rfl, rfl⟩
  · unfold webhookHandler
    rw [if_neg hsig]
    by_cases he : (ev.event == "charge.success") = true
    · rw [if_pos he]
      simp [href, hget, hst]
    · rw [if_neg he]
  · unfold verifyHandler
    simp [hget, hst]

/-- C6: for a webhook request with a valid signature, the acknowledgment is
200 exactly when none of the storage operations the request executed
faulted, and the status code is independent of the request context `Env` —
in particular of the WhatsApp delivery outcome `wa`, so a notification
failure never prevents the positive acknowledgment. -/
theorem webhook_ack_success_iff_no_storage_fault (faults : Nat → Bool)
    (env env2 : Env) (s : Store) (hmac : String) (ev : WebhookEvent) :
    ((webhookHandler faults env s hmac (some hmac) ev).statusCode == 200)
      = ((List.range
            (webhookHandler faults env s hmac (some hmac) ev).storageCalls).all
          fun i => !(faults i)) ∧
    (webhookHandler faults env s hmac (some hmac) ev).statusCode
      = (webhookHandler faults env2 s hmac (some hmac) ev).statusCode := by
  have hsig : ¬ (some hmac ≠ some hmac) := by simp
  unfold webhookHandler
  simp only [if_neg hsig]
  by_cases he : (ev.event == "charge.success") = true
  · simp only [if_pos he]
    cases hf0 : faults 0 with
    | true => simp [hf0]
    | false =>
        simp only [hf0, Bool.false_eq_true, if_false]
        by_cases hc : (((getTransaction s ev.reference).map
            (fun t => t.status == "completed")).getD false) = true
        · simp [hc, hf0]
        · simp only [if_neg hc]
          by_cases hds : (ev.dataStatus == "success") = true
          · simp only [if_pos hds]
            cases hf1 : faults 1 with
            | true =>
                simp [updateTransactionRun, hf1, hf0]
                exact ⟨1, by omega, hf1⟩
            | false =>
                simp only [updateTransactionRun, hf1, Bool.false_eq_true,
                  if_false]
                cases hf2 : faults 2 with
                | true => simp [hf2, hf0, hf1, List.range_succ]
                | false =>
                    simp only [hf2, Bool.false_eq_true, if_false,
                      getTransaction_update]
                    cases hg : getTransaction s ev.reference with
                    | none => simp [hf0, hf1, hf2, List.range_succ]
                    | some t => simp [hf0, hf1, hf2, List.range_succ]
          · simp only [if_neg hds]
            cases hf1 : faults 1 with
            | true =>
                simp [updateTransactionRun, hf1, hf0]
                exact ⟨1, by omega, hf1⟩
            | false =>
                simp [updateTransactionRun, hf1, hf0, List.range_succ]
  · simp [he]

/-- C7: a `charge.success` event whose inner status is not `success`,
delivered for a stored record not in status `completed`, stores that raw
inner status unchanged (the single update sets only `status`) and fires no
notification. -/
theorem webhook_non_success_passthrough (s : Store) (r : String)
    (t : TransactionRow) (env : Env) (hmac : String) (ev : WebhookEvent)
    (hev : ev.event = "charge.success") (href : ev.reference = r)
    (hds : ev.dataStatus ≠ "success")
    (hget : getTransaction s r = some t) (hst : t.status ≠ "completed") :
    (webhookHandler (fun _ => false) env s hmac (some hmac) ev).statusCode = 200 ∧
    (webhookHandler (fun _ => false) env s hmac (some hmac) ev).notifs = [] ∧
    (webhookHandler (fun _ => false) env s hmac (some hmac) ev).updates
      = [⟨some ev.dataStatus, none, none⟩] ∧
    (getTransaction
        (webhookHandler (fun _ => false) env s hmac (some hmac) ev).store
        r).map (fun row => row.status)
      = some ev.dataStatus := by
  have hsig : ¬ (some hmac ≠ some hmac) := by simp
  have he : (ev.event == "charge.success") = true := by simp [hev]
  have hds' : (ev.dataStatus == "success") = false := by simp [hds]
  have hc : (t.status == "completed") = false := by simp [hst]
  unfold webhookHandler
  simp only [if_neg hsig, if_pos he, href, hget, hds', hc,
    updateTransactionRun, Bool.false_eq_true, if_false, Option.map_some',
    Option.getD_some]
  refine ⟨trivial, trivial, trivial, ?_⟩
  rw [getTransaction_update, hget]
  rfl

/-- C4 counterexample: for a reference with no stored record, delivering the
identical successful event twice produces zero notifications (not exactly
one), and the second delivery does not hit the idempotency guard: it issues
an update statement again instead of being acknowledged without
reprocessing. -/
theorem webhook_replay_unknown_reference :
    (webhookHandler (fun _ => false) sampleEnv [] "h" (some "h")
        ⟨"charge.success", "REFX", "success", none⟩).notifs.length
      + (webhookHandler (fun _ => false) sampleEnv
          (webhookHandler (fun _ => false) sampleEnv [] "h" (some "h")
            ⟨"charge.success", "REFX", "success", none⟩).store
          "h" (some "h")
          ⟨"charge.success", "REFX", "success", none⟩).notifs.length = 0 ∧
    (webhookHandler (fun _ => false) sampleEnv
        (webhookHandler (fun _ => false) sampleEnv [] "h" (some "h")
          ⟨"charge.success", "REFX", "success", none⟩).store
        "h" (some "h")
        ⟨"charge.success", "REFX", "success", none⟩).updates.length = 1 := by
  exact ⟨rfl, rfl⟩

/-- C4 amended: for a reference whose stored record exists and is not in
status `completed`, delivering the identical successful webhook event twice
produces exactly one notification and exactly one update carrying a
`verifiedAt` timestamp: the second delivery hits the idempotency guard and
is acknowledged with 200, no new notification, no update, and no store
change. -/
theorem webhook_replay_single_notification (s : Store) (r : String)
    (t : TransactionRow) (env : Env) (hmac : String) (ev : WebhookEvent)
    (hev : ev.event = "charge.success") (href : ev.reference = r)
    (hds : ev.dataStatus = "success")
    (hget : getTransaction s r = some t) (hst : t.status ≠ "completed") :
    (webhookHandler (fun _ => false) env s hmac (some hmac) ev).notifs.length
      = 1 ∧
    ((webhookHandler (fun _ => false) env s hmac (some hmac) ev).updates.map
        (fun u => u.verified_at))
      = [some env.nowIso] ∧
    (webhookHandler (fun _ => false) env
        (webhookHandler (fun _ => false) env s hmac (some hmac) ev).store
        hmac (some hmac) ev).statusCode = 200 ∧
    (webhookHandler (fun _ => false) env
        (webhookHandler (fun _ => false) env s hmac (some hmac) ev).store
        hmac (some hmac) ev).notifs = [] ∧
    (webhookHandler (fun _ => false) env
        (webhookHandler (fun _ => false) env s hmac (some hmac) ev).store
        hmac (some hmac) ev).updates = [] ∧
    (webhookHandler (fun _ => false) env
        (webhookHandler (fun _ => false) env s hmac (some hmac) ev).store
        hmac (some hmac) ev).store
      = (webhookHandler (fun _ => false) env s hmac (some hmac) ev).store := by
  have hsig : ¬ (some hmac ≠ some hmac) := by simp
  have he : (ev.event == "charge.success") = true := by simp [hev]
  have hds' : (ev.dataStatus == "success") = true := by simp [hds]
  have hc : (t.status == "completed") = false := by simp [hst]
  have hu : getTransaction
      ((updateTransaction s r
        (successUpdate (some t) (webhookUSD ev.metadata (some t)) env.nowIso)
        env.now).1) r
      = some (applyUpdate t
          (successUpdate (some t) (webhookUSD ev.metadata (some t)) env.nowIso)
          env.now) := by
    rw [getTransaction_update, hget]
    rfl
  have hw1 : webhookHandler (fun _ => false) env s hmac (some hmac) ev
      = ⟨200,
          (updateTransaction s r
            (successUpdate (some t) (webhookUSD ev.metadata (some t))
              env.nowIso) env.now).1,
          [(applyUpdate t
              (successUpdate (some t) (webhookUSD ev.metadata (some t))
                env.nowIso) env.now, "completed (via Webhook)")],
          [notifyAdmin env.adminPhone env.wa env.watTime
            (applyUpdate t
              (successUpdate (some t) (webhookUSD ev.metadata (some t))
                env.nowIso) env.now) "completed (via Webhook)"],
          [successUpdate (some t) (webhookUSD ev.metadata (some t))
            env.nowIso], 3⟩ := by
    unfold webhookHandler
    simp only [if_neg hsig, if_pos he, href, hget, hds', hc,
      updateTransactionRun, Bool.false_eq_true, if_false, Option.map_some',
      Option.getD_some, hu]
    simp
  have hs2 : (applyUpdate t
      (successUpdate (some t) (webhookUSD ev.metadata (some t)) env.nowIso)
      env.now).status = "completed" := rfl
  have hw2 : webhookHandler (fun _ => false) env
      ((updateTransaction s r
        (successUpdate (some t) (webhookUSD ev.metadata (some t)) env.nowIso)
        env.now).1) hmac (some hmac) ev
      = ⟨200,
          (updateTransaction s r
            (successUpdate (some t) (webhookUSD ev.metadata (some t))
              env.nowIso) env.now).1, [], [], [], 1⟩ := by
    unfold webhookHandler
    simp only [if_neg hsig, if_pos he, href, hu, Option.map_some',
      Option.getD_some, hs2]
    simp
  rw [hw1, hw2]
  simp [successUpdate]

/-- The verify status map never yields `completed`. -/
theorem verifyStatusMap_ne_completed (p : String) :
    verifyStatusMap p ≠ "completed" := by
  unfold verifyStatusMap
  by_cases h : (p == "failed" || p == "abandoned" || p == "pending") = true
  · rw [if_pos h]
    simp only [Bool.or_eq_true, beq_iff_eq] at h
    rcases h with (h1 | h2) | h3
    · rw [h1]; decide
    · rw [h2]; decide
    · rw [h3]; decide
  · rw [if_neg h]; decide

/-- Verify, non-success provider status, on a record already carrying the
mapped status: no write, but one notification fires (the notify guard only
compares the stored status with the mapped status). -/
theorem verify_nonsuccess_same_status (env : Env) (s : Store) (r : String)
    (resp : VerifyProviderResp) (t : TransactionRow)
    (hget : getTransaction s r = some t) (hst : t.status ≠ "completed")
    (hp : resp.paymentStatus ≠ "success")
    (hA : t.status = verifyStatusMap resp.paymentStatus) :
    verifyHandler env s r resp
      = ⟨400, "", "Payment " ++ verifyStatusMap resp.paymentStatus, s,
          [(t, verifyStatusMap resp.paymentStatus ++ " (via Verification)")],
          [notifyAdmin env.adminPhone env.wa env.watTime t
            (verifyStatusMap resp.paymentStatus ++ " (via Verification)")],
          []⟩ := by
  have hp' : (resp.paymentStatus == "success") = false := by simp [hp]
  have hst' : (t.status == "completed") = false := by simp [hst]
  have hA1 : (t.status != verifyStatusMap resp.paymentStatus) = false := by
    simp [hA]
  have hA2 : (t.status == verifyStatusMap resp.paymentStatus) = true := by
    simp [hA]
  unfold verifyHandler
  simp only [hget, hp', hst', hA1, hA2, Bool.and_false, Bool.false_and,
    Bool.false_eq_true, if_false]
  simp

/-- Verify, non-success provider status, on a record not yet carrying the
mapped status: one write of the mapped status and one notification on the
re-read row. -/
theorem verify_nonsuccess_new_status (env : Env) (s : Store) (r : String)
    (resp : VerifyProviderResp) (t : TransactionRow)
    (hget : getTransaction s r = some t) (hst : t.status ≠ "completed")
    (hp : resp.paymentStatus ≠ "success")
    (hA : t.status ≠ verifyStatusMap resp.paymentStatus) :
    verifyHandler env s r resp
      = ⟨400, "", "Payment " ++ verifyStatusMap resp.paymentStatus,
          (updateTransaction s r
            ⟨some (verifyStatusMap resp.paymentStatus), none, none⟩
            env.now).1,
          [(applyUpdate t
              ⟨some (verifyStatusMap resp.paymentStatus), none, none⟩
              env.now,
            verifyStatusMap resp.paymentStatus ++ " (via Verification)")],
          [notifyAdmin env.adminPhone env.wa env.watTime
            (applyUpdate t
              ⟨some (verifyStatusMap resp.paymentStatus), none, none⟩
              env.now)
            (verifyStatusMap resp.paymentStatus ++ " (via Verification)")],
          [⟨some (verifyStatusMap resp.paymentStatus), none, none⟩]⟩ := by
  have hp' : (resp.paymentStatus == "success") = false := by simp [hp]
  have hst' : (t.status == "completed") = false := by simp [hst]
  have hA1 : (t.status != verifyStatusMap resp.paymentStatus) = true := by
    simp [hA]
  have hu : getTransaction
      ((updateTransaction s r
        ⟨some (verifyStatusMap resp.paymentStatus), none, none⟩ env.now).1) r
      = some (applyUpdate t
          ⟨some (verifyStatusMap resp.paymentStatus), none, none⟩ env.now) := by
    rw [getTransaction_update, hget]
    rfl
  have hs2 : ((applyUpdate t
      ⟨some (verifyStatusMap resp.paymentStatus), none, none⟩ env.now).status
        == verifyStatusMap resp.paymentStatus) = true := by
    simp [applyUpdate]
  unfold verifyHandler
  simp only [hget, hp', hst', hA1, hu, hs2, Bool.and_false, Bool.false_and,
    Bool.false_eq_true, if_false, if_true]

/-- C2 counterexample: with a record stored in status `pending` and provider
status `abandoned` on both calls, the second identical verify call performs
zero additional writes but fires one additional notification, contradicting
the claimed zero additional notifications. -/
theorem verify_repeat_duplicate_notification :
    (verifyHandler sampleEnv
        (verifyHandler sampleEnv [rowPending] "REF1"
          ⟨true, "abandoned", none⟩).store
        "REF1" ⟨true, "abandoned", none⟩).updates = [] ∧
    (verifyHandler sampleEnv
        (verifyHandler sampleEnv [rowPending] "REF1"
          ⟨true, "abandoned", none⟩).store
        "REF1" ⟨true, "abandoned", none⟩).notifs.length = 1 :=
  ⟨rfl, rfl⟩

/-- C2 amended: for a stored record not in status `completed` and a provider
status other than `success`, a second verify call with the same provider
status performs zero additional store writes, but fires exactly one
additional notification (the notify guard compares the stored status with
the mapped status, which already match after the first call); the store is
unchanged by the second call. -/
theorem verify_repeat_no_write_one_notification (env : Env) (s : Store)
    (r : String) (resp : VerifyProviderResp) (t : TransactionRow)
    (hget : getTransaction s r = some t) (hst : t.status ≠ "completed")
    (hp : resp.paymentStatus ≠ "success") :
    (verifyHandler env (verifyHandler env s r resp).store r resp).updates
      = [] ∧
    (verifyHandler env (verifyHandler env s r resp).store r resp).notifs.length
      = 1 ∧
    (verifyHandler env (verifyHandler env s r resp).store r resp).store
      = (verifyHandler env s r resp).store := by
  by_cases hA : t.status = verifyStatusMap resp.paymentStatus
  · rw [verify_nonsuccess_same_status env s r resp t hget hst hp hA]
    rw [show (⟨400, "", "Payment " ++ verifyStatusMap resp.paymentStatus, s,
          [(t, verifyStatusMap resp.paymentStatus ++ " (via Verification)")],
          [notifyAdmin env.adminPhone env.wa env.watTime t
            (verifyStatusMap resp.paymentStatus ++ " (via Verification)")],
          []⟩ : VerifyResult).store = s from rfl]
    rw [verify_nonsuccess_same_status env s r resp t hget hst hp hA]
    exact ⟨rfl, rfl, rfl⟩
  · rw [verify_nonsuccess_new_status env s r resp t hget hst hp hA]
    have hu : getTransaction
        ((updateTransaction s r
          ⟨some (verifyStatusMap resp.paymentStatus), none, none⟩
          env.now).1) r
        = some (applyUpdate t
            ⟨some (verifyStatusMap resp.paymentStatus), none, none⟩
            env.now) := by
      rw [getTransaction_update, hget]
      rfl
    have hst2 : (applyUpdate t
        ⟨some (verifyStatusMap resp.paymentStatus), none, none⟩
        env.now).status ≠ "completed" := by
      show verifyStatusMap resp.paymentStatus ≠ "completed"
      exact verifyStatusMap_ne_completed resp.paymentStatus
    have hA2 : (applyUpdate t
        ⟨some (verifyStatusMap resp.paymentStatus), none, none⟩
        env.now).status = verifyStatusMap resp.paymentStatus := rfl
    rw [show (⟨400, "", "Payment " ++ verifyStatusMap resp.paymentStatus,
          (updateTransaction s r
            ⟨some (verifyStatusMap resp.paymentStatus), none, none⟩
            env.now).1,
          [(applyUpdate t
              ⟨some (verifyStatusMap resp.paymentStatus), none, none⟩
              env.now,
            verifyStatusMap resp.paymentStatus ++ " (via Verification)")],
          [notifyAdmin env.adminPhone env.wa env.watTime
            (applyUpdate t
              ⟨some (verifyStatusMap resp.paymentStatus), none, none⟩
              env.now)
            (verifyStatusMap resp.paymentStatus ++ " (via Verification)")],
          [⟨some (verifyStatusMap resp.paymentStatus), none, none⟩]⟩ :
        VerifyResult).store
      = (updateTransaction s r
          ⟨some (verifyStatusMap resp.paymentStatus), none, none⟩
          env.now).1 from rfl]
    rw [verify_nonsuccess_same_status env _ r resp _ hu hst2 hp hA2]
    exact ⟨rfl, rfl, rfl⟩

/-- C3 (code bug): on a verify success transition, the secondary-currency
amount written into the merged metadata is NOT taken from the stored record
when the provider verification response lacks it: for a record storing
`originalAmountUSD = 50`, verify overwrites the stored amount with 0, while
the webhook path on the matching event retains 50 — the stored-value
fallback exists only in the webhook handler, contradicting the source
comment that the USD amount is preserved. -/
theorem verify_success_overwrites_stored_usd :
    (getTransaction (verifyHandler sampleEnv [rowWithUsd] "REF3"
        ⟨true, "success", none⟩).store "REF3").map (fun t => t.metadata)
      = some (some (.obj [("originalAmountUSD", .num 0),
          ("note", .str "x")])) ∧
    (getTransaction (webhookHandler (fun _ => false) sampleEnv [rowWithUsd]
        "sig" (some "sig")
        ⟨"charge.success", "REF3", "success", none⟩).store "REF3").map
          (fun t => t.metadata)
      = some (some (.obj [("originalAmountUSD", .num 50),
          ("note", .str "x")])) :=
  ⟨rfl, rfl⟩

/-- C5 counterexample: updating an unknown reference does not fail with a
NotFound error: absent a storage fault, the promise resolves successfully
while changing nothing (zero changed rows, store unchanged). -/
theorem update_unknown_reference_succeeds :
    updateTransactionRun false ([] : Store) "UNKNOWN"
      ⟨some "completed", none, none⟩ 0 = .ok ([], 0) := rfl

/-- C5 amended: for every store with no record for the reference, the store
update operation succeeds — there is no NotFound failure in the store layer
— resolving with the store unchanged and a change count of zero. -/
theorem update_unknown_reference_no_change (s : Store) (ref : String)
    (u : TxUpdate) (now : Nat) (h : getTransaction s ref = none) :
    updateTransactionRun false s ref u now = .ok (s, 0) := by
  unfold updateTransactionRun
  simp only [Bool.false_eq_true, if_false]
  rw [update_unknown_eq s ref u now h]

/-- Witness for C5 amended at a concrete store. -/
theorem update_unknown_reference_no_change_witness :
    getTransaction [rowPending] "NOPE" = none ∧
    updateTransactionRun false [rowPending] "NOPE"
      ⟨some "failed", none, none⟩ 9 = .ok ([rowPending], 0) :=
  ⟨rfl, update_unknown_reference_no_change [rowPending] "NOPE"
    ⟨some "failed", none, none⟩ 9 rfl⟩

/-- C9 counterexample: with a configured admin phone and a failing delivery
(the relay call raises a network error), notifyAdmin still returns true: a
delivery failure is not reported as false by notifyAdmin. -/
theorem notifyAdmin_failure_returns_true :
    notifyAdmin (some "2348000000000") (.error .fail) "time" rowPending
      "completed (via Webhook)" = true := rfl

/-- C9 amended: notifyAdmin is total and returns true on every input — it
never throws and a notification failure can never fail the enclosing
operation — but its boolean does not reflect delivery failure; the false
report exists only at the sendWhatsAppNotification level, which maps a
raised network error to false and a response to `status == 200`. -/
theorem notifyAdmin_never_throws (phone : Option String)
    (wa : Except NetErr Nat) (watTime : String) (t : TransactionRow)
    (label : String) (p m : String) (st : Nat) :
    notifyAdmin phone wa watTime t label = true ∧
    sendWhatsAppNotification (.error .fail) p m = false ∧
    sendWhatsAppNotification (.ok st) p m = (st == 200) :=
  ⟨rfl, rfl, rfl⟩

/-- C8: a webhook whose signature header does not match the computed HMAC is
rejected with 401 before any storage operation (zero storage calls, store
untouched, nothing notified); an initialize request missing the amount or
the email is rejected with 400 with no provider call, no record creation
and no notification. -/
theorem rejected_before_side_effects (faults : Nat → Bool) (env : Env)
    (s : Store) (hmac : String) (sig : Option String) (ev : WebhookEvent)
    (fault : Bool) (r : InitReq) (genRef : String) (pout : ProviderOutcome)
    (hsig : sig ≠ some hmac)
    (hmiss : r.amount = JVal.null ∨ r.email = JVal.null) :
    webhookHandler faults env s hmac sig ev = ⟨401, s, [], [], [], 0⟩ ∧
    initializeHandler fault env s r genRef pout
      = ⟨400, "Amount and email are required", false, s, [], []⟩ := by
  constructor
  · unfold webhookHandler
    rw [if_pos hsig]
  · unfold initializeHandler
    have hv : (!r.amount.truthy || !r.email.truthy) = true := by
      rcases hmiss with h | h <;> simp [h, JVal.truthy]
    rw [if_pos hv]

/-- C10: initialize treats amount 0 — and any falsy amount — like a missing
one: with a truthy email it still returns the 400 validation failure with
no provider call, no record creation and no notification. -/
theorem initialize_falsy_amount_rejected (fault : Bool) (env : Env)
    (s : Store) (r : InitReq) (genRef : String) (pout : ProviderOutcome)
    (hamt : r.amount.truthy = false) (hemail : r.email.truthy = true) :
    initializeHandler fault env s r genRef pout
      = ⟨400, "Amount and email are required", false, s, [], []⟩ := by
  have _ := hemail
  unfold initializeHandler
  have hv : (!r.amount.truthy || !r.email.truthy) = true := by simp [hamt]
  rw [if_pos hv]

/-- Witness for C1 at a concrete completed record. -/
theorem completed_status_absorbing_witness :
    (getTransaction [rowCompleted] "REF2" = some rowCompleted ∧
     rowCompleted.status = "completed" ∧
     (⟨"charge.success", "REF2", "success", none⟩ : WebhookEvent).reference
       = "REF2") ∧
    (((webhookHandler (fun _ => false) sampleEnv [rowCompleted] "sig"
        (some "sig") ⟨"charge.success", "REF2", "success", none⟩).store
        = [rowCompleted] ∧
      (webhookHandler (fun _ => false) sampleEnv [rowCompleted] "sig"
        (some "sig") ⟨"charge.success", "REF2", "success", none⟩).notifs
        = [] ∧
      (webhookHandler (fun _ => false) sampleEnv [rowCompleted] "sig"
        (some "sig") ⟨"charge.success", "REF2", "success", none⟩).updates
        = []) ∧
     (webhookHandler (fun _ => false) sampleEnv [rowCompleted] "sig"
        (some "sig") ⟨"charge.success", "REF2", "success", none⟩).statusCode
        = 200 ∧
     ((verifyHandler sampleEnv [rowCompleted] "REF2"
        ⟨true, "success", none⟩).store = [rowCompleted] ∧
      (verifyHandler sampleEnv [rowCompleted] "REF2"
        ⟨true, "success", none⟩).notifs = [] ∧
      (verifyHandler sampleEnv [rowCompleted] "REF2"
        ⟨true, "success", none⟩).updates = [] ∧
      (verifyHandler sampleEnv [rowCompleted] "REF2"
        ⟨true, "success", none⟩).statusCode = 200 ∧
      (verifyHandler sampleEnv [rowCompleted] "REF2"
        ⟨true, "success", none⟩).dbStatusResp = "completed_by_webhook")) :=
  ⟨⟨rfl, rfl, rfl⟩,
   completed_status_absorbing [rowCompleted] "REF2" rowCompleted
     (fun _ => false) sampleEnv "sig"
     ⟨"charge.success", "REF2", "success", none⟩ ⟨true, "success", none⟩
     rfl rfl rfl⟩

/-- Witness for C2 amended at a concrete pending record and provider status
abandoned. -/
theorem verify_repeat_no_write_one_notification_witness :
    (getTransaction [rowPending] "REF1" = some rowPending ∧
     rowPending.status ≠ "completed" ∧
     (⟨true, "abandoned", none⟩ : VerifyProviderResp).paymentStatus
       ≠ "success") ∧
    ((verifyHandler sampleEnv
        (verifyHandler sampleEnv [rowPending] "REF1"
          ⟨true, "abandoned", none⟩).store "REF1"
        ⟨true, "abandoned", none⟩).updates = [] ∧
     (verifyHandler sampleEnv
        (verifyHandler sampleEnv [rowPending] "REF1"
          ⟨true, "abandoned", none⟩).store "REF1"
        ⟨true, "abandoned", none⟩).notifs.length = 1 ∧
     (verifyHandler sampleEnv
        (verifyHandler sampleEnv [rowPending] "REF1"
          ⟨true, "abandoned", none⟩).store "REF1"
        ⟨true, "abandoned", none⟩).store
       = (verifyHandler sampleEnv [rowPending] "REF1"
          ⟨true, "abandoned", none⟩).store) :=
  ⟨⟨rfl, by decide, by decide⟩,
   verify_repeat_no_write_one_notification sampleEnv [rowPending] "REF1"
     ⟨true, "abandoned", none⟩ rowPending rfl (by decide) (by decide)⟩

/-- Witness for C4 amended at a concrete pending record. -/
theorem webhook_replay_single_notification_witness :
    ((⟨"charge.success", "REF1", "success", none⟩ : WebhookEvent).event
       = "charge.success" ∧
     (⟨"charge.success", "REF1", "success", none⟩ : WebhookEvent).reference
       = "REF1" ∧
     (⟨"charge.success", "REF1", "success", none⟩ : WebhookEvent).dataStatus
       = "success" ∧
     getTransaction [rowPending] "REF1" = some rowPending ∧
     rowPending.status ≠ "completed") ∧
    ((webhookHandler (fun _ => false) sampleEnv [rowPending] "sig"
        (some "sig")
        ⟨"charge.success", "REF1", "success", none⟩).notifs.length = 1 ∧
     ((webhookHandler (fun _ => false) sampleEnv [rowPending] "sig"
        (some "sig")
        ⟨"charge.success", "REF1", "success", none⟩).updates.map
          (fun u => u.verified_at)) = [some sampleEnv.nowIso] ∧
     (webhookHandler (fun _ => false) sampleEnv
        (webhookHandler (fun _ => false) sampleEnv [rowPending] "sig"
          (some "sig") ⟨"charge.success", "REF1", "success", none⟩).store
        "sig" (some "sig")
        ⟨"charge.success", "REF1", "success", none⟩).statusCode = 200 ∧
     (webhookHandler (fun _ => false) sampleEnv
        (webhookHandler (fun _ => false) sampleEnv [rowPending] "sig"
          (some "sig") ⟨"charge.success", "REF1", "success", none⟩).store
        "sig" (some "sig")
        ⟨"charge.success", "REF1", "success", none⟩).notifs = [] ∧
     (webhookHandler (fun _ => false) sampleEnv
        (webhookHandler (fun _ => false) sampleEnv [rowPending] "sig"
          (some "sig") ⟨"charge.success", "REF1", "success", none⟩).store
        "sig" (some "sig")
        ⟨"charge.success", "REF1", "success", none⟩).updates = [] ∧
     (webhookHandler (fun _ => false) sampleEnv
        (webhookHandler (fun _ => false) sampleEnv [rowPending] "sig"
          (some "sig") ⟨"charge.success", "REF1", "success", none⟩).store
        "sig" (some "sig")
        ⟨"charge.success", "REF1", "success", none⟩).store
       = (webhookHandler (fun _ => false) sampleEnv [rowPending] "sig"
          (some "sig")
          ⟨"charge.success", "REF1", "success", none⟩).store) :=
  ⟨⟨rfl, rfl, rfl, rfl, by decide⟩,
   webhook_replay_single_notification [rowPending] "REF1" rowPending
     sampleEnv "sig" ⟨"charge.success", "REF1", "success", none⟩
     rfl rfl rfl rfl (by decide)⟩

/-- Witness for C7 at a concrete pending record and inner status failed. -/
theorem webhook_non_success_passthrough_witness :
    ((⟨"charge.success", "REF1", "failed", none⟩ : WebhookEvent).event
       = "charge.success" ∧
     (⟨"charge.success", "REF1", "failed", none⟩ : WebhookEvent).reference
       = "REF1" ∧
     (⟨"charge.success", "REF1", "failed", none⟩ : WebhookEvent).dataStatus
       ≠ "success" ∧
     getTransaction [rowPending] "REF1" = some rowPending ∧
     rowPending.status ≠ "completed") ∧
    ((webhookHandler (fun _ => false) sampleEnv [rowPending] "sig"
        (some "sig")
        ⟨"charge.success", "REF1", "failed", none⟩).statusCode = 200 ∧
     (webhookHandler (fun _ => false) sampleEnv [rowPending] "sig"
        (some "sig")
        ⟨"charge.success", "REF1", "failed", none⟩).notifs = [] ∧
     (webhookHandler (fun _ => false) sampleEnv [rowPending] "sig"
        (some "sig")
        ⟨"charge.success", "REF1", "failed", none⟩).updates
       = [⟨some (⟨"charge.success", "REF1", "failed", none⟩ :
            WebhookEvent).dataStatus, none, none⟩] ∧
     (getTransaction
        (webhookHandler (fun _ => false) sampleEnv [rowPending] "sig"
          (some "sig")
          ⟨"charge.success", "REF1", "failed", none⟩).store "REF1").map
          (fun row => row.status)
       = some (⟨"charge.success", "REF1", "failed", none⟩ :
            WebhookEvent).dataStatus) :=
  ⟨⟨rfl, rfl, by decide, rfl, by decide⟩,
   webhook_non_success_passthrough [rowPending] "REF1" rowPending sampleEnv
     "sig" ⟨"charge.success", "REF1", "failed", none⟩
     rfl rfl (by decide) rfl (by decide)⟩

/-- Witness for C8: an absent signature header and a request missing the
amount field. -/
theorem rejected_before_side_effects_witness :
    ((none : Option String) ≠ some "sig" ∧
     (reqMissingAmount.amount = JVal.null ∨
      reqMissingAmount.email = JVal.null)) ∧
    (webhookHandler (fun _ => false) sampleEnv [rowPending] "sig" none
        ⟨"charge.success", "REF1", "success", none⟩
      = ⟨401, [rowPending], [], [], [], 0⟩ ∧
     initializeHandler false sampleEnv [rowPending] reqMissingAmount "GEN"
        ProviderOutcome.otherError
      = ⟨400, "Amount and email are required", false, [rowPending], [], []⟩) :=
  ⟨⟨by simp, Or.inl rfl⟩,
   rejected_before_side_effects (fun _ => false) sampleEnv [rowPending]
     "sig" none ⟨"charge.success", "REF1", "success", none⟩ false
     reqMissingAmount "GEN" ProviderOutcome.otherError (by simp)
     (Or.inl rfl)⟩

/-- Witness for C10 at amount 0 with a valid email. -/
theorem initialize_falsy_amount_rejected_witness :
    (reqZeroAmount.amount.truthy = false ∧
     reqZeroAmount.email.truthy = true) ∧
    initializeHandler false sampleEnv [] reqZeroAmount "GEN"
        ProviderOutcome.otherError
      = ⟨400, "Amount and email are required", false, [], [], []⟩ :=
  ⟨⟨rfl, rfl⟩,
   initialize_falsy_amount_rejected false sampleEnv [] reqZeroAmount "GEN"
     ProviderOutcome.otherError rfl rfl⟩

end PaymentProcessor
